import Mathlib

/-!
Roof — apartment search & discovery: verification of the spec against the code.

Shallow embedding of the search/discovery subsystem of the Roof rental-listing
marketplace.  The frontend stores (`src/frontend/src/stores/search.ts`,
`stores/apartment.ts` and the browse view) are translated directly from the
TypeScript source.  The backend search engine (query builder, ranking,
indexer, suggestion engine) is not present in the repository — `src/backend`
holds only a README — so those parts are modelled from the spec and each such
definition is marked `Modelled from the spec:` in its doc comment.
-/

namespace Roof

/-- Apartment status, from `types/index.ts`:
`export type ApartmentStatus = 'draft' | 'published' | 'archived'`. -/
inductive ApartmentStatus where
  | draft
  | published
  | archived
deriving DecidableEq, Repr

/-- The apartment record, from `interface Apartment` in `types/index.ts`.
Timestamps (`start_date`, `created_at`, `updated_at`) and the nullable
`featured_until` are ISO date strings in TypeScript; they are modelled as
integers, which is order-isomorphic to the chronological order used by the
code. -/
structure Apartment where
  id : Nat
  title : String
  description : String
  location : String
  apartment_type : String
  rent_per_week : Int
  start_date : Int
  duration_len : Option Int
  place_accept : String
  furnishing_type : String
  is_bathroom_solo : Bool
  parking_type : String
  keywords : List String
  is_active : Bool
  status : ApartmentStatus
  images : List String
  renter_id : Nat
  view_count : Nat
  is_featured : Bool
  featured_until : Option Int
  featured_priority : Int
  created_at : Int
  updated_at : Int
deriving DecidableEq, Repr

/-- A loosely-typed JavaScript value as it can appear in an
`ApartmentFilters` object: `undefined`, `null`, a string, a number, a
boolean, or an array of strings (the `keywords` filter). -/
inductive JSVal where
  | undef
  | null
  | str (s : String)
  | num (n : Int)
  | bool (b : Bool)
  | arr (xs : List String)
deriving DecidableEq, Repr

/-- JavaScript `value.toString()` for the scalar values that reach the
`params.append(key, value.toString())` branch in `fetchApartments`. -/
def JSVal.asString : JSVal → String
  | .undef => "undefined"
  | .null => "null"
  | .str s => s
  | .num n => toString n
  | .bool b => if b then "true" else "false"
  | .arr xs => String.intercalate "," xs

/-- A JavaScript object, as an association list of (key, value) pairs in
property-insertion order; JavaScript objects never hold duplicate keys. -/
abbrev FilterObj := List (String × JSVal)

/-- JavaScript object spread/override: `{...o, k: v}`.  If `k` is already a
property of `o` its value is replaced in place (a JS object never holds a
key twice, so replacing the first occurrence is the JS semantics),
otherwise `(k, v)` is appended at the end — the JS property-order
semantics. -/
def objInsert (o : FilterObj) (k : String) (v : JSVal) : FilterObj :=
  match o with
  | [] => [(k, v)]
  | p :: ps => if p.1 == k then (k, v) :: ps else p :: objInsert ps k v

/-- JavaScript property read `o[k]`: the value stored under the first (and,
for a well-formed object, only) occurrence of key `k`. -/
def objLookup (o : FilterObj) (k : String) : Option JSVal :=
  match o with
  | [] => none
  | p :: ps => if p.1 == k then some p.2 else objLookup ps k

/-- The serialization of one filter entry in `stores/apartment.ts`
`fetchApartments` (part_013 lines 47–57):

```ts
if (value !== undefined && value !== null && value !== '') {
  if (Array.isArray(value)) {
    value.forEach((v) => params.append(key, v))
  } else {
    params.append(key, value.toString())
  }
}
```

The `!==` comparisons are strict, so `false` and `0` pass the guard and are
appended; arrays always pass the guard (an array is never strictly equal to
`''`) and contribute one repeated parameter per element. -/
def serializeFilterEntry (key : String) (v : JSVal) : List (String × String) :=
  match v with
  | .undef => []
  | .null => []
  | .str s => if s == "" then [] else [(key, s)]
  | .num n => [(key, (JSVal.num n).asString)]
  | .bool b => [(key, (JSVal.bool b).asString)]
  | .arr xs => xs.map (fun x => (key, x))

/-- `Object.entries(filters).forEach(...)` over the whole filter object. -/
def serializeFilters (filters : FilterObj) : List (String × String) :=
  filters.flatMap (fun p => serializeFilterEntry p.1 p.2)

/-- The full query-parameter list built by `stores/apartment.ts`
`fetchApartments(page, size, filters, showFeaturedFirst)` (part_013 lines
39–57): `skip`, `limit` and `show_featured_first` first, then the
serialized filter entries. -/
def storeFetchParams (page size : Nat) (showFeaturedFirst : Bool)
    (filters : FilterObj) : List (String × String) :=
  [("skip", toString ((page - 1) * size)),
   ("limit", toString size),
   ("show_featured_first", if showFeaturedFirst then "true" else "false")]
  ++ serializeFilters filters

/-- The effective filter object the browse view passes to the store
(part_018 lines 215–221):

```ts
apartmentStore.fetchApartments(currentPage.value, pageSize, {
  ...filters.value,
  is_active: true,
  status: 'published'
})
```

The visibility entries are written after the spread, so they override any
caller-supplied `is_active`/`status`. -/
def browseEffectiveFilters (filters : FilterObj) : FilterObj :=
  objInsert (objInsert filters "is_active" (.bool true)) "status" (.str "published")

/-- The request issued by the browse view's local `fetchApartments`
(part_018): page size is the constant `pageSize = 12` and
`showFeaturedFirst` is left at its default `true`. -/
def browseFetchParams (page : Nat) (filters : FilterObj) : List (String × String) :=
  storeFetchParams page 12 true (browseEffectiveFilters filters)

/-- The browse view's sort handler (part_018 lines 259–263):

```ts
const handleSort = () => {
  // Sorting is typically handled by the backend
  // For now, we'll refetch with sort parameter
  fetchApartments()
}
```

`fetchApartments()` is called with no argument derived from `sortBy`; the
selected sort mode does not reach the issued request. -/
def browseRefetchOnSort (_sortBy : String) (page : Nat) (filters : FilterObj) :
    List (String × String) :=
  browseFetchParams page filters

/-- The query parameters built by the search store
(`stores/search.ts` `search`, lines 38–45): `query`, `skip`, `limit`,
`sort_by`, `fuzziness`. -/
def searchRequestParams (query : String) (skip limit : Nat)
    (sortBy fuzziness : String) : List (String × String) :=
  [("query", query),
   ("skip", toString skip),
   ("limit", toString limit),
   ("sort_by", sortBy),
   ("fuzziness", fuzziness)]

/-! ## The search store (`src/frontend/src/stores/search.ts`) as a state machine -/

/-- The reactive state of the Pinia search store (`stores/search.ts` lines
9–16).  `error = none` models `error.value = null`. -/
structure SearchState where
  searchQuery : String
  searchResults : List Apartment
  suggestions : List String
  spellingSuggestions : List String
  filters : FilterObj
  loading : Bool
  error : Option String
  totalResults : Nat
deriving DecidableEq, Repr

/-- The store's initial state (`ref('')`, `ref([])`, `ref({})`,
`ref(false)`, `ref(null)`, `ref(0)`). -/
def initialSearchState : SearchState :=
  { searchQuery := ""
    searchResults := []
    suggestions := []
    spellingSuggestions := []
    filters := []
    loading := false
    error := none
    totalResults := 0 }

/-- The outcome of one awaited API call, as observed by the store's
`try`/`catch`: either a response whose `data` is a JSON array of
apartments (`some page`) or a non-array/absent body (`none`), or a
rejection carrying `err.response?.data?.detail` when present. -/
inductive ApiOutcome (α : Type) where
  | ok (data : Option α)
  | fail (detail : Option String)
deriving DecidableEq, Repr

/-- One complete run of `search(query, skip, limit, sortBy, fuzziness)`
(`stores/search.ts` lines 27–56).  Before the `try`, the store sets
`loading = true`, `error = null` and records `searchQuery = query`.  On
success it stores `response.data || []` and sets `totalResults` to
`Array.isArray(response.data) ? response.data.length : 0`; on failure it
sets `error` to the response detail or `'Search failed'`.  The `finally`
clears `loading`.  The returned `Bool` is the promise's resolved value. -/
def searchStep (s : SearchState) (query : String)
    (resp : ApiOutcome (List Apartment)) : SearchState × Bool :=
  let s1 := { s with loading := true, error := none, searchQuery := query }
  match resp with
  | .ok data =>
      ({ s1 with
          searchResults := data.getD []
          totalResults := (data.getD []).length
          loading := false }, true)
  | .fail detail =>
      ({ s1 with error := some (detail.getD "Search failed"), loading := false }, false)

/-- One complete run of `filterApartments(filterData)` (`stores/search.ts`
lines 59–75).  Before the `try`, the store sets `loading = true`,
`error = null` and records `filters = filterData`; the success and failure
branches mirror `search`, with the default message `'Filter failed'`. -/
def filterStep (s : SearchState) (filterData : FilterObj)
    (resp : ApiOutcome (List Apartment)) : SearchState × Bool :=
  let s1 := { s with loading := true, error := none, filters := filterData }
  match resp with
  | .ok data =>
      ({ s1 with
          searchResults := data.getD []
          totalResults := (data.getD []).length
          loading := false }, true)
  | .fail detail =>
      ({ s1 with error := some (detail.getD "Filter failed"), loading := false }, false)

/-- One complete run of `getAutocompleteSuggestions(query, field, limit)`
(`stores/search.ts` lines 78–101).  A query shorter than 2 characters
(including the falsy empty string) clears `suggestions` and returns `[]`
without issuing a request; a rejected request is caught, clears
`suggestions` and returns `[]` as well.  `resp` carries the suggestion
list extracted from the response
(`response.data?.suggestions || response.data || []`). -/
def autocompleteStep (s : SearchState) (query : String)
    (resp : ApiOutcome (List String)) : SearchState × List String :=
  if query.length < 2 then
    ({ s with suggestions := [] }, [])
  else
    match resp with
    | .ok data =>
        let sug := data.getD []
        ({ s with suggestions := sug }, sug)
    | .fail _ =>
        ({ s with suggestions := [] }, [])

/-- One complete run of `getSpellingSuggestions(query)` (`stores/search.ts`
lines 104–118): same shape as autocomplete with a minimum length of 3. -/
def spellingStep (s : SearchState) (query : String)
    (resp : ApiOutcome (List String)) : SearchState × List String :=
  if query.length < 3 then
    ({ s with spellingSuggestions := [] }, [])
  else
    match resp with
    | .ok data =>
        let sug := data.getD []
        ({ s with spellingSuggestions := sug }, sug)
    | .fail _ =>
        ({ s with spellingSuggestions := [] }, [])

/-! ## Backend search engine, modelled from the spec

`src/backend` contains only a README; the query builder, ranking policy,
indexer and suggestion engine the spec describes are not in the repository,
so they are modelled from the spec's own words below. -/

/-- Modelled from the spec: visibility rule of §3 — "`status` (published |
draft | archived) and `is_active` (boolean) — documents not
`published && is_active` must never appear in public search/filter
results."  (Backend query builder absent from the repository.) -/
def visible (a : Apartment) : Bool :=
  a.status == .published && a.is_active

/-- Modelled from the spec: §4.2 — "`status == published && is_active ==
true` is always injected as a mandatory filter, regardless of caller
input".  The candidate set of any public search/filter/browse request is
the index restricted to visible documents that also satisfy the caller's
combined text-and-filter predicate `m`.  (Backend query builder absent
from the repository.) -/
def queryCandidates (index : List Apartment) (m : Apartment → Bool) :
    List Apartment :=
  index.filter (fun a => visible a && m a)

/-- Modelled from the spec: §3 invariant — a document is *currently*
featured only while `featured_until` is null or in the future; "an expired
featured flag must not grant ranking boost (re-evaluated at query time)".
(Backend ranking policy absent from the repository.) -/
def currentlyFeatured (now : Int) (a : Apartment) : Bool :=
  a.is_featured &&
    (match a.featured_until with
     | none => true
     | some t => now < t)

/-- The sort modes of §4.3 / the browse view's dropdown (part_018 lines
58–62): `relevance`, `price_asc`, `price_desc`, `date_desc`,
`views_desc`. -/
inductive SortMode where
  | relevance
  | price_asc
  | price_desc
  | date_desc
  | views_desc
deriving DecidableEq, Repr

/-- Modelled from the spec: §4.3 rule 1 — the primary ordering key per
sort mode: `relevance` uses the text score, `price_asc`/`price_desc` use
`rent_per_week`, `date_desc` uses `created_at`, `views_desc` uses
`view_count`. -/
def primaryKey (mode : SortMode) (score : Apartment → Int) (a : Apartment) : Int :=
  match mode with
  | .relevance => score a
  | .price_asc => a.rent_per_week
  | .price_desc => a.rent_per_week
  | .date_desc => a.created_at
  | .views_desc => Int.ofNat a.view_count

/-- Modelled from the spec: direction of the primary key — ascending for
`price_asc`, descending for the rest (higher score, higher price, newer,
more viewed first). -/
def primaryBefore (mode : SortMode) (x y : Int) : Bool :=
  match mode with
  | .price_asc => decide (x ≤ y)
  | _ => decide (y ≤ x)

/-- Modelled from the spec: §4.3 rules 1–3 — the deterministic multi-key
comparator: currently-featured documents first (when
`show_featured_first`), in descending `featured_priority`; then the
primary key of the sort mode; ties broken by `id` ascending. -/
def resultLE (mode : SortMode) (score : Apartment → Int) (now : Int)
    (showFeaturedFirst : Bool) (a b : Apartment) : Bool :=
  let fa := showFeaturedFirst && currentlyFeatured now a
  let fb := showFeaturedFirst && currentlyFeatured now b
  if fa != fb then fa
  else if fa && fb && a.featured_priority != b.featured_priority then
    decide (b.featured_priority < a.featured_priority)
  else
    let pa := primaryKey mode score a
    let pb := primaryKey mode score b
    if pa != pb then primaryBefore mode pa pb
    else decide (a.id ≤ b.id)

/-- Modelled from the spec: §4.3 `rank(candidates, sortMode)` — a
state-free deterministic ordering of the candidate set under the
comparator above. -/
def rankResults (mode : SortMode) (score : Apartment → Int) (now : Int)
    (showFeaturedFirst : Bool) (candidates : List Apartment) : List Apartment :=
  candidates.insertionSort (fun a b => resultLE mode score now showFeaturedFirst a b = true)

/-- Modelled from the spec: §4.3/§4.5 — one paginated `search` read:
visibility-filtered candidates, ranked, then offset-paginated with
`skip`/`limit`. -/
def searchPage (index : List Apartment) (m : Apartment → Bool)
    (mode : SortMode) (score : Apartment → Int) (now : Int)
    (showFeaturedFirst : Bool) (skip limit : Nat) : List Apartment :=
  ((rankResults mode score now showFeaturedFirst (queryCandidates index m)).drop skip).take limit

/-- Modelled from the spec: §4.5 — `totalCount` is "the full matching set
size, not just the returned page". -/
def totalMatches (index : List Apartment) (m : Apartment → Bool) : Nat :=
  (queryCandidates index m).length

/-- Modelled from the spec: §4.4 autocomplete suggestion order — "ordered
by how many documents contain each and then alphabetically for ties";
`p.2` is the document count of token `p.1`. -/
def suggLE (p q : String × Nat) : Bool :=
  if p.2 != q.2 then decide (q.2 < p.2) else decide (p.1 ≤ q.1)

/-- Modelled from the spec: §4.4 — `suggest(prefix, field, limit)` over the
vocabulary of the selected field(s), given as (token, document count)
pairs.  "Matches the beginning of tokens"; "Returns at most `limit`
distinct strings, ordered by how many documents contain each and then
alphabetically for ties.  Requires `len(prefix) >= 2`; shorter input
returns an empty list rather than an error."  (Suggestion engine absent
from the repository.) -/
def suggest (vocab : List (String × Nat)) (pre : String) (limit : Nat) :
    List String :=
  if pre.length < 2 then []
  else
    (((vocab.filter (fun p => p.1.startsWith pre)).insertionSort
        (fun p q => suggLE p q = true)).map Prod.fst).take limit

/-- Modelled from the spec: §4.1 — the Indexer's `upsert(document)`,
keyed by the immutable document `id`: an existing document with the same
id is replaced, otherwise the document is added.  (Indexer absent from
the repository.) -/
def upsert (index : List Apartment) (d : Apartment) : List Apartment :=
  if index.any (fun a => a.id == d.id) then
    index.map (fun a => if a.id == d.id then d else a)
  else
    index ++ [d]

/-! ## The apartment card (`components/apartments/ApartmentCard.vue`) -/

/-- The featured badge of the apartment card (ApartmentCard.vue lines
71–79): `v-if="apartment.is_featured"` — the badge is rendered exactly
when the stored `is_featured` flag is true.  The current time `now` is
listed as an argument to record that the template consults neither it nor
`featured_until`. -/
def featuredBadgeShown (_now : Int) (a : Apartment) : Bool :=
  a.is_featured

/-! ## Concrete sample records (for witnesses and counterexamples) -/

/-- A published, active apartment — the §8 example record. -/
def apt1 : Apartment :=
  { id := 1
    title := "Spacious 2BHK in Zamalek"
    description := "nice"
    location := "Zamalek"
    apartment_type := "2bhk"
    rent_per_week := 700
    start_date := 0
    duration_len := none
    place_accept := "any"
    furnishing_type := "furnished"
    is_bathroom_solo := false
    parking_type := "none"
    keywords := []
    is_active := true
    status := .published
    images := []
    renter_id := 1
    view_count := 0
    is_featured := false
    featured_until := none
    featured_priority := 0
    created_at := 0
    updated_at := 0 }

/-- A second published, active apartment. -/
def apt2 : Apartment :=
  { apt1 with id := 2, title := "Studio in Maadi", location := "Maadi" }

/-- A draft (hence not publicly visible) apartment. -/
def aptDraft : Apartment :=
  { apt1 with id := 3, status := .draft }

/-- A two-document index of visible apartments. -/
def demoIndex : List Apartment := [apt1, apt2]

/-- An apartment whose stored `is_featured` flag is still true although its
`featured_until` window (time 100) has passed. -/
def expiredFeaturedApt : Apartment :=
  { apt1 with id := 4, is_featured := true, featured_until := some 100,
              featured_priority := 1 }

/-! ## Claims -/

/-- C10: when `fetchApartments` serializes the caller-supplied filter
object into request query parameters, every entry whose value is
`undefined`, `null`, or the empty string is omitted entirely; boolean
`false` and numeric `0` are sent; and an array-valued filter is sent as
one repeated query parameter per element. -/
theorem claim_C10_filter_serialization (key s : String) (n : Int) (b : Bool)
    (xs : List String) :
    serializeFilterEntry key .undef = [] ∧
    serializeFilterEntry key .null = [] ∧
    serializeFilterEntry key (.str "") = [] ∧
    serializeFilterEntry key (.str s) = (if s == "" then [] else [(key, s)]) ∧
    serializeFilterEntry key (.bool false) = [(key, "false")] ∧
    serializeFilterEntry key (.num 0) = [(key, "0")] ∧
    serializeFilterEntry key (.bool b) = [(key, if b then "true" else "false")] ∧
    serializeFilterEntry key (.num n) = [(key, toString n)] ∧
    serializeFilterEntry key (.arr xs) = xs.map (fun x => (key, x)) :=
  ⟨rfl, rfl, rfl, rfl, rfl, rfl, rfl, rfl, rfl⟩

/-- C9: a failed `search` or `filterApartments` request leaves the
previously displayed results intact — `searchResults` and `totalResults`
keep the values from the last successful request, only `error` is set
(to the response detail or the fixed fallback message), `loading` is
reset, and the new `searchQuery` / `filters` have already been
recorded — and the promise resolves to `false`. -/
theorem claim_C9_error_keeps_results (s : SearchState) (q : String)
    (fd : FilterObj) (d1 d2 : Option String) :
    ((searchStep s q (.fail d1)).1.searchResults = s.searchResults ∧
     (searchStep s q (.fail d1)).1.totalResults = s.totalResults ∧
     (searchStep s q (.fail d1)).1.error = some (d1.getD "Search failed") ∧
     (searchStep s q (.fail d1)).1.loading = false ∧
     (searchStep s q (.fail d1)).1.searchQuery = q ∧
     (searchStep s q (.fail d1)).2 = false) ∧
    ((filterStep s fd (.fail d2)).1.searchResults = s.searchResults ∧
     (filterStep s fd (.fail d2)).1.totalResults = s.totalResults ∧
     (filterStep s fd (.fail d2)).1.error = some (d2.getD "Filter failed") ∧
     (filterStep s fd (.fail d2)).1.loading = false ∧
     (filterStep s fd (.fail d2)).1.filters = fd ∧
     (filterStep s fd (.fail d2)).2 = false) :=
  ⟨⟨rfl, rfl, rfl, rfl, rfl, rfl⟩, ⟨rfl, rfl, rfl, rfl, rfl, rfl⟩⟩

/-- C1, counterexample: with two visible matching apartments in the index
and `limit = 1`, a successful `search` sets `totalResults` to `1` — the
length of the returned page — while the full matching set has size `2`;
`totalResults` does not equal the total number of matching apartments
when `limit` is smaller than that total. -/
theorem claim_C1_counterexample :
    (searchStep initialSearchState "zamalek"
        (.ok (some (searchPage demoIndex (fun _ => true) .relevance
          (fun _ => 0) 0 true 0 1)))).1.totalResults = 1 ∧
    totalMatches demoIndex (fun _ => true) = 2 ∧
    (1 : Nat) ≠ 2 := by
  refine ⟨by decide, by decide, by decide⟩

/-- C1, amended: after a successful `search` or `filterApartments`, the
store sets `totalResults` to the length of the returned response array
(`0` when the response body is not an array) — the size of the returned
page — which equals the full matching total only when the whole matching
set is returned in that page. -/
theorem claim_C1_total_is_page_length (s : SearchState) (q : String)
    (fd : FilterObj) (data : List Apartment) :
    (searchStep s q (.ok (some data))).1.totalResults = data.length ∧
    (searchStep s q (.ok none)).1.totalResults = 0 ∧
    (filterStep s fd (.ok (some data))).1.totalResults = data.length ∧
    (filterStep s fd (.ok none)).1.totalResults = 0 :=
  ⟨rfl, rfl, rfl, rfl⟩

/-- C4: evaluation at the failing input — selecting `price_asc` in the
browse view's sort dropdown triggers a refetch whose issued request is
byte-for-byte the one issued under `relevance`: `handleSort` calls
`fetchApartments()` without forwarding `sortBy`, and no `sort_by`
parameter appears in the browse request at all.  (The search store, by
contrast, does transmit `sort_by`, so its issued query does change with
the mode.) -/
theorem claim_C4_sort_not_transmitted :
    browseRefetchOnSort "price_asc" 1 [] = browseRefetchOnSort "relevance" 1 [] ∧
    (browseRefetchOnSort "price_asc" 1 []).all (fun p => p.1 != "sort_by") = true ∧
    searchRequestParams "q" 0 12 "price_asc" "AUTO"
      ≠ searchRequestParams "q" 0 12 "relevance" "AUTO" := by
  refine ⟨rfl, by decide, by decide⟩

/-- C5, counterexample: a rejected autocomplete request (e.g. the index
store unreachable) leaves the store in exactly the state of a successful
request with zero matches and returns the same value — the two are
indistinguishable; likewise for spelling suggestions.  No error kind is
surfaced. -/
theorem claim_C5_counterexample :
    autocompleteStep initialSearchState "ca" (.fail (some "IndexUnavailable")) =
      autocompleteStep initialSearchState "ca" (.ok (some [])) ∧
    spellingStep initialSearchState "cat" (.fail (some "IndexUnavailable")) =
      spellingStep initialSearchState "cat" (.ok (some [])) :=
  ⟨rfl, rfl⟩

/-- C5, amended: `search` and `filterApartments` surface a failure
distinguishably (the error message is recorded and the promise resolves
`false`), but `getAutocompleteSuggestions` and `getSpellingSuggestions`
catch any request failure and return the empty list with the error state
untouched — a failing request is indistinguishable from a successful
request with zero matches. -/
theorem claim_C5_silent_suggestion_fallback (s : SearchState) (q : String)
    (d : Option String) :
    ((searchStep s q (.fail d)).1.error = some (d.getD "Search failed") ∧
     (searchStep s q (.fail d)).2 = false) ∧
    autocompleteStep s q (.fail d) = autocompleteStep s q (.ok (some [])) ∧
    (autocompleteStep s q (.fail d)).1.error = s.error ∧
    spellingStep s q (.fail d) = spellingStep s q (.ok (some [])) ∧
    (spellingStep s q (.fail d)).1.error = s.error := by
  refine ⟨⟨rfl, rfl⟩, ?_, ?_, ?_, ?_⟩
  · unfold autocompleteStep; split <;> rfl
  · unfold autocompleteStep; split <;> rfl
  · unfold spellingStep; split <;> rfl
  · unfold spellingStep; split <;> rfl

/-- C3, counterexample: the apartment `expiredFeaturedApt` still carries
`is_featured == true` while its `featured_until` (time 100) is already in
the past at display time 200, yet the apartment card renders the featured
badge for it — `featured_until` is not re-evaluated at display time. -/
theorem claim_C3_counterexample :
    expiredFeaturedApt.is_featured = true ∧
    expiredFeaturedApt.featured_until = some 100 ∧
    (100 : Int) ≤ 200 ∧
    featuredBadgeShown 200 expiredFeaturedApt = true := by decide

/-- C3, amended: the query-time ranking policy (modelled from the spec)
does re-evaluate `featured_until` — a featured document whose window has
passed counts as not currently featured, so it gets neither the ranking
boost nor a place in the featured-first block; the apartment card's
featured badge, however, is rendered whenever the stored `is_featured`
flag is true, without consulting `featured_until` at display time. -/
theorem claim_C3_expired_boost_vs_badge :
    (∀ (now t : Int) (a : Apartment), a.featured_until = some t → t ≤ now →
        currentlyFeatured now a = false ∧
        ∀ sff : Bool, (sff && currentlyFeatured now a) = false) ∧
    (∀ (now : Int) (a : Apartment), featuredBadgeShown now a = a.is_featured) := by
  constructor
  · intro now t a h ht
    have hcf : currentlyFeatured now a = false := by
      unfold currentlyFeatured
      rw [h]
      simp [decide_eq_false (not_lt.mpr ht)]
    exact ⟨hcf, fun sff => by simp [hcf]⟩
  · intro now a
    rfl

/-- Witness for C3 (amended) at the concrete expired-featured record. -/
theorem claim_C3_expired_boost_vs_badge_witness :
    currentlyFeatured 200 expiredFeaturedApt = false ∧
    featuredBadgeShown 200 expiredFeaturedApt = expiredFeaturedApt.is_featured :=
  ⟨(claim_C3_expired_boost_vs_badge.1 200 100 expiredFeaturedApt (by decide) (by decide)).1,
   claim_C3_expired_boost_vs_badge.2 200 expiredFeaturedApt⟩

/-- C7: a prefix shorter than 2 characters makes autocomplete return the
empty suggestion list without raising an error (the store's guard returns
before any request, leaving the error state untouched; the modelled
engine's own guard agrees); for a prefix of length at least 2 the engine
returns at most `limit` suggestions, and they are distinct whenever the
vocabulary's tokens are distinct. -/
theorem claim_C7_autocomplete_guard :
    (∀ (s : SearchState) (q : String) (resp : ApiOutcome (List String)),
        q.length < 2 →
          autocompleteStep s q resp = ({ s with suggestions := [] }, []) ∧
          (autocompleteStep s q resp).1.error = s.error) ∧
    (∀ (vocab : List (String × Nat)) (pre : String) (limit : Nat),
        pre.length < 2 → suggest vocab pre limit = []) ∧
    (∀ (vocab : List (String × Nat)) (pre : String) (limit : Nat),
        2 ≤ pre.length →
          (suggest vocab pre limit).length ≤ limit ∧
          ((vocab.map Prod.fst).Nodup → (suggest vocab pre limit).Nodup)) := by
  refine ⟨?_, ?_, ?_⟩
  · intro s q resp h
    constructor
    · unfold autocompleteStep
      rw [if_pos h]
    · unfold autocompleteStep
      rw [if_pos h]
  · intro vocab pre limit h
    unfold suggest
    rw [if_pos h]
  · intro vocab pre limit h
    have hlt : ¬ pre.length < 2 := not_lt.mpr h
    constructor
    · unfold suggest
      rw [if_neg hlt]
      rw [List.length_take]
      exact min_le_left _ _
    · intro hnd
      unfold suggest
      rw [if_neg hlt]
      have hperm :
          List.Perm
            ((vocab.filter (fun p => p.1.startsWith pre)).insertionSort
              (fun p q => suggLE p q = true))
            (vocab.filter (fun p => p.1.startsWith pre)) :=
        List.perm_insertionSort _ _
      have hsub : List.Sublist
          ((vocab.filter (fun p => p.1.startsWith pre)).map Prod.fst)
          (vocab.map Prod.fst) :=
        (List.filter_sublist _).map _
      have hnd0 : ((vocab.filter (fun p => p.1.startsWith pre)).map Prod.fst).Nodup :=
        hnd.sublist hsub
      have hnd1 :
          (((vocab.filter (fun p => p.1.startsWith pre)).insertionSort
              (fun p q => suggLE p q = true)).map Prod.fst).Nodup :=
        ((hperm.map Prod.fst).nodup_iff).mpr hnd0
      exact hnd1.sublist (List.take_sublist _ _)

/-- Witness for C7 at concrete inputs. -/
theorem claim_C7_autocomplete_guard_witness :
    autocompleteStep initialSearchState "c" (.ok (some ["cat"]))
      = ({ initialSearchState with suggestions := [] }, []) ∧
    suggest [("cairo", 3)] "c" 5 = [] ∧
    (suggest [("cairo", 3), ("cat", 1)] "ca" 1).length ≤ 1 ∧
    (suggest [("cairo", 3), ("cat", 1)] "ca" 1).Nodup :=
  ⟨(claim_C7_autocomplete_guard.1 initialSearchState "c" (.ok (some ["cat"])) (by decide)).1,
   claim_C7_autocomplete_guard.2.1 [("cairo", 3)] "c" 5 (by decide),
   (claim_C7_autocomplete_guard.2.2 [("cairo", 3), ("cat", 1)] "ca" 1 (by decide)).1,
   (claim_C7_autocomplete_guard.2.2 [("cairo", 3), ("cat", 1)] "ca" 1 (by decide)).2 (by decide)⟩

/-- Unfolding `objLookup` one property at a time. -/
theorem objLookup_cons (p : String × JSVal) (ps : FilterObj) (k : String) :
    objLookup (p :: ps) k = if p.1 == k then some p.2 else objLookup ps k := rfl

/-- The JS override write `{...o, k: v}` makes `k` read back `v`. -/
theorem objLookup_objInsert_self (o : FilterObj) (k : String) (v : JSVal) :
    objLookup (objInsert o k v) k = some v := by
  induction o with
  | nil => simp [objInsert, objLookup_cons]
  | cons p ps ih =>
    rw [objInsert]
    by_cases hp : (p.1 == k) = true
    · rw [if_pos hp, objLookup_cons]
      simp
    · rw [if_neg hp, objLookup_cons, if_neg hp]
      exact ih

/-- The JS override write `{...o, k': v}` leaves the value of any other
key `k` unchanged. -/
theorem objLookup_objInsert_ne (o : FilterObj) (k k' : String) (v : JSVal)
    (h : (k' == k) = false) :
    objLookup (objInsert o k' v) k = objLookup o k := by
  induction o with
  | nil =>
    simp [objInsert, objLookup_cons, h, objLookup]
  | cons p ps ih =>
    rw [objInsert]
    by_cases hp : (p.1 == k') = true
    · have hpe : p.1 = k' := by simpa using hp
      have hpk : (p.1 == k) = false := by rw [hpe]; exact h
      rw [if_pos hp, objLookup_cons, objLookup_cons]
      simp only [hpk, h, Bool.false_eq_true, if_false]
    · rw [if_neg hp, objLookup_cons, objLookup_cons, ih]

/-- The entry written by `{...o, k: v}` is a property of the result. -/
theorem mem_objInsert_self (o : FilterObj) (k : String) (v : JSVal) :
    (k, v) ∈ objInsert o k v := by
  induction o with
  | nil => simp [objInsert]
  | cons p ps ih =>
    rw [objInsert]
    by_cases hp : (p.1 == k) = true
    · rw [if_pos hp]
      exact List.mem_cons_self _ _
    · rw [if_neg hp]
      exact List.mem_cons_of_mem _ ih

/-- An entry under a different key survives the override write. -/
theorem mem_objInsert_ne (o : FilterObj) (k k' : String) (v v' : JSVal)
    (h : (k == k') = false) (hm : (k, v) ∈ o) :
    (k, v) ∈ objInsert o k' v' := by
  induction o with
  | nil => cases hm
  | cons p ps ih =>
    rw [objInsert]
    rcases List.mem_cons.mp hm with hhead | htail
    · by_cases hp : (p.1 == k') = true
      · exfalso
        have hk : p.1 = k := by rw [← hhead]
        rw [hk, h] at hp
        exact Bool.false_ne_true hp
      · rw [if_neg hp, hhead]
        exact List.mem_cons_self _ _
    · by_cases hp : (p.1 == k') = true
      · rw [if_pos hp]
        exact List.mem_cons_of_mem _ htail
      · rw [if_neg hp]
        exact List.mem_cons_of_mem _ (ih htail)

/-- Every serialized form of a present entry appears among the request's
query parameters. -/
theorem mem_serializeFilters (o : FilterObj) (k : String) (v : JSVal)
    (x : String × String) (hm : (k, v) ∈ o) (hx : x ∈ serializeFilterEntry k v) :
    x ∈ serializeFilters o := by
  unfold serializeFilters
  exact List.mem_flatMap.mpr ⟨(k, v), hm, hx⟩

/-- C2: the visibility condition `status == published && is_active == true`
is part of the effective query regardless of caller-supplied filters and
cannot be overridden — the browse view writes `is_active: true` and
`status: 'published'` after spreading the caller's filter object, so they
win and are serialized into the issued request; and (modelled from the
spec, the backend query builder being absent from the repository) the
candidate set of every public search/filter/browse request contains only
published, active documents. -/
theorem claim_C2_visibility_mandatory :
    (∀ cf : FilterObj,
        objLookup (browseEffectiveFilters cf) "is_active" = some (.bool true) ∧
        objLookup (browseEffectiveFilters cf) "status" = some (.str "published") ∧
        ("is_active", "true") ∈ serializeFilters (browseEffectiveFilters cf) ∧
        ("status", "published") ∈ serializeFilters (browseEffectiveFilters cf)) ∧
    (∀ (index : List Apartment) (m : Apartment → Bool) (a : Apartment),
        a ∈ queryCandidates index m → a.status = .published ∧ a.is_active = true) := by
  constructor
  · intro cf
    refine ⟨?_, ?_, ?_, ?_⟩
    · unfold browseEffectiveFilters
      rw [objLookup_objInsert_ne _ _ _ _ (by decide)]
      exact objLookup_objInsert_self _ _ _
    · exact objLookup_objInsert_self _ _ _
    · refine mem_serializeFilters _ "is_active" (.bool true) _ ?_ (by simp [serializeFilterEntry, JSVal.asString])
      exact mem_objInsert_ne _ _ _ _ _ (by decide) (mem_objInsert_self _ _ _)
    · exact mem_serializeFilters _ "status" (.str "published") _
        (mem_objInsert_self _ _ _) (by simp [serializeFilterEntry])
  · intro index m a ha
    unfold queryCandidates at ha
    have hv : (visible a && m a) = true := (List.mem_filter.mp ha).2
    have hvis : visible a = true := (Bool.and_eq_true _ _).mp hv |>.1
    unfold visible at hvis
    have h1 := (Bool.and_eq_true _ _).mp hvis
    exact ⟨by simpa using h1.1, h1.2⟩

/-- Witness for C2: a caller filter object that even tries to set
`is_active: false` and `status: 'draft'` is overridden, and a concrete
visible document drawn from the candidate set is published and active. -/
theorem claim_C2_visibility_mandatory_witness :
    objLookup (browseEffectiveFilters
        [("is_active", .bool false), ("status", .str "draft")]) "is_active"
      = some (.bool true) ∧
    apt1 ∈ queryCandidates [aptDraft, apt1] (fun _ => true) ∧
    apt1.status = .published ∧ apt1.is_active = true := by
  refine ⟨(claim_C2_visibility_mandatory.1 _).1, by decide, ?_, ?_⟩
  · exact (claim_C2_visibility_mandatory.2 [aptDraft, apt1] (fun _ => true) apt1 (by decide)).1
  · exact (claim_C2_visibility_mandatory.2 [aptDraft, apt1] (fun _ => true) apt1 (by decide)).2

/-- C8: the Indexer's `upsert` (modelled from the spec, the Indexer being
absent from the repository) is idempotent — applying `upsert(d)` twice
with identical content yields the same searchable index state as applying
it once. -/
theorem claim_C8_upsert_idempotent (index : List Apartment) (d : Apartment) :
    upsert (upsert index d) d = upsert index d := by
  by_cases h : index.any (fun a => a.id == d.id) = true
  · have hinner : upsert index d = index.map fun a => if a.id == d.id then d else a := by
      rw [upsert, if_pos h]
    rw [hinner]
    have hmem : (index.map fun a => if a.id == d.id then d else a).any
        (fun a => a.id == d.id) = true := by
      rw [List.any_eq_true] at h ⊢
      obtain ⟨a, ha, hid⟩ := h
      exact ⟨d, List.mem_map.mpr ⟨a, ha, by rw [if_pos hid]⟩, by simp⟩
    rw [upsert, if_pos hmem, List.map_map]
    apply List.map_congr_left
    intro a _
    by_cases hid : (a.id == d.id) = true
    · simp only [Function.comp_apply, if_pos hid]
      rw [if_pos (by simp)]
    · simp only [Function.comp_apply, if_neg hid]
  · have hinner : upsert index d = index ++ [d] := by
      rw [upsert, if_neg h]
    rw [hinner]
    have hmem : (index ++ [d]).any (fun a => a.id == d.id) = true := by
      rw [List.any_append]
      simp
    rw [upsert, if_pos hmem, List.map_append]
    have hno : index.any (fun a => a.id == d.id) = false :=
      Bool.eq_false_iff.mpr h
    rw [List.any_eq_false] at hno
    have h1 : (index.map fun a => if a.id == d.id then d else a) = index := by
      conv_rhs => rw [← List.map_id index]
      apply List.map_congr_left
      intro a ha
      rw [if_neg (by simpa using hno a ha), id]
    rw [h1]
    have h2 : ([d].map fun a => if a.id == d.id then d else a) = [d] := by
      rw [List.map_cons, List.map_nil, if_pos (by simp)]
    rw [h2]

/-- C6: for an unchanged index and fixed query, filters, sort mode and
featured-boost switch, offset pagination of the ranked result list
(modelled from the spec, the backend being absent from the repository) is
stable — page `(skip=0, limit=10)` followed by page `(skip=10, limit=10)`
is exactly page `(skip=0, limit=20)` with no document duplicated (given
distinct index entries) and none skipped. -/
theorem claim_C6_pagination_stable (index : List Apartment)
    (m : Apartment → Bool) (mode : SortMode) (score : Apartment → Int)
    (now : Int) (sff : Bool) :
    searchPage index m mode score now sff 0 10
        ++ searchPage index m mode score now sff 10 10
      = searchPage index m mode score now sff 0 20 ∧
    (index.Nodup →
      (searchPage index m mode score now sff 0 10
        ++ searchPage index m mode score now sff 10 10).Nodup) := by
  have key :
      searchPage index m mode score now sff 0 10
          ++ searchPage index m mode score now sff 10 10
        = searchPage index m mode score now sff 0 20 := by
    unfold searchPage
    exact (List.take_add _ 10 10).symm
  refine ⟨key, fun hnd => ?_⟩
  rw [key]
  unfold searchPage
  rw [List.drop_zero]
  have hperm :
      List.Perm
        (rankResults mode score now sff (queryCandidates index m))
        (queryCandidates index m) :=
    List.perm_insertionSort _ _
  have hnd0 : (queryCandidates index m).Nodup := hnd.filter _
  have hnd1 : (rankResults mode score now sff (queryCandidates index m)).Nodup :=
    hperm.nodup_iff.mpr hnd0
  exact hnd1.sublist (List.take_sublist _ _)

/-- Witness for C6 at a concrete two-document index. -/
theorem claim_C6_pagination_stable_witness :
    (demoIndex.Nodup) ∧
    (searchPage demoIndex (fun _ => true) .relevance (fun _ => 0) 0 true 0 10
      ++ searchPage demoIndex (fun _ => true) .relevance (fun _ => 0) 0 true 10 10).Nodup :=
  ⟨by decide,
   (claim_C6_pagination_stable demoIndex (fun _ => true) .relevance
      (fun _ => 0) 0 true).2 (by decide)⟩

end Roof
